import Mathlib

/-!
Shallow embedding of the boardgames CRUD service.

Sources embedded:
  - `src/app/external/database/models.py` (`BoardGame` ORM model, column
    nullability, Python-side timestamp defaults and `onupdate`);
  - `src/app/routers/v1/schemas.py` (`BoardGameBase`/`BoardGameCreate`,
    `BoardGameUpdate`, `BoardGameResponse`, `BoardGameListResponse` with
    their Pydantic `Field` constraints);
  - `src/app/routers/v1/boardgames.py` (the five handlers `create_game`,
    `get_games`, `get_game`, `update_game`, `delete_game`).

Modelling conventions:
  - The database table is a list of rows in insertion order together with
    the next value of the auto-increment primary-key sequence.
  - Timestamps are naturals (abstract clock ticks); each request carries
    one `now` value, standing for the wall clock at that request.
  - Python `float` ratings are modelled as exact rationals; every rating
    comparison appearing in the claims (against the bounds 0.0 and 10.0,
    and the probe value 10.1) has the same outcome for the binary64 float
    and for the exact rational, so no claim depends on rounding.
  - Pydantic runs request-body validation before the handler body, so
    each handler embedding checks payload validity first and the database
    state is returned unchanged on every error path, exactly as a raised
    exception leaves the (rolled-back) session.
  - A field of `BoardGameUpdate` is `Option (Option α)`: the outer layer
    is Pydantic's fields-set tracking (`none` = absent from the request,
    reproduced by `model_dump(exclude_unset=True)`), the inner layer is
    the JSON value (`none` = explicit `null`).
  - `commit` enforces the `NOT NULL` column constraints of the ORM model:
    flushing a row whose `name`, `min_players` or `max_players` is `NULL`
    raises an integrity error and persists nothing.
-/

deriving instance DecidableEq for Except

namespace BoardGames

/-- One row of the `boardgames` table, per the `BoardGame` ORM model in
`src/app/external/database/models.py`.  Column nullability follows the
model: `name`, `min_players`, `max_players`, `created_at`, `updated_at`
are `NOT NULL`; the rest are nullable. -/
structure BoardGameRow where
  id : Nat
  name : String
  description : Option String
  min_players : Int
  max_players : Int
  min_playtime : Option Int
  max_playtime : Option Int
  year_published : Option Int
  rating : Option Rat
  created_at : Nat
  updated_at : Nat
deriving Repr, DecidableEq

/-- The persistent state: the `boardgames` table in insertion order plus
the auto-increment sequence (PostgreSQL `SERIAL`, first value 1). -/
structure DB where
  rows : List BoardGameRow
  nextId : Nat
deriving Repr, DecidableEq

/-- The empty database right after `init_db` created the tables. -/
def DB.empty : DB := { rows := [], nextId := 1 }

/-- Error taxonomy at the handler boundary: Pydantic validation failure
(422), `HTTPException` 404 with its detail string, and a storage-engine
write rejection (constraint violation on commit, surfaced as 500). -/
inductive ApiError where
  | validationError : ApiError
  | notFound (detail : String) : ApiError
  | persistenceError : ApiError
deriving Repr, DecidableEq

/-- HTTP status of each error kind. -/
def ApiError.status : ApiError → Nat
  | .validationError => 422
  | .notFound _ => 404
  | .persistenceError => 500

/-- The 404 detail string built by every handler:
`f"Board game with ID {game_id} not found"`. -/
def notFoundDetail (gid : Nat) : String :=
  "Board game with ID " ++ toString gid ++ " not found"

/-- The `BoardGameCreate` request schema (`schemas.py`): all fields of
`BoardGameBase`, with `description`, `min_playtime`, `max_playtime`,
`year_published`, `rating` optional (defaulting to `null`). -/
structure BoardGameCreate where
  name : String
  description : Option String
  min_players : Int
  max_players : Int
  min_playtime : Option Int
  max_playtime : Option Int
  year_published : Option Int
  rating : Option Rat
deriving Repr, DecidableEq

/-- Pydantic `Field` constraints of `BoardGameBase`: `name` length in
[1,200]; `min_players`, `max_players` in [1,100]; `min_playtime`,
`max_playtime` ≥ 1 when given; `year_published` in [1900,2100] when
given; `rating` in [0,10] when given. -/
def BoardGameCreate.valid (p : BoardGameCreate) : Bool :=
  decide (1 ≤ p.name.length) && decide (p.name.length ≤ 200) &&
  decide (1 ≤ p.min_players) && decide (p.min_players ≤ 100) &&
  decide (1 ≤ p.max_players) && decide (p.max_players ≤ 100) &&
  (match p.min_playtime with
    | none => true
    | some v => decide (1 ≤ v)) &&
  (match p.max_playtime with
    | none => true
    | some v => decide (1 ≤ v)) &&
  (match p.year_published with
    | none => true
    | some v => decide (1900 ≤ v) && decide (v ≤ 2100)) &&
  (match p.rating with
    | none => true
    | some q => decide (0 ≤ q) && decide (q ≤ 10))

/-- The `BoardGameUpdate` request schema (`schemas.py`): every field
optional.  Outer `Option` = present in the request body (Pydantic
fields-set), inner `Option` = the JSON value, `none` being `null`. -/
structure BoardGameUpdate where
  name : Option (Option String)
  description : Option (Option String)
  min_players : Option (Option Int)
  max_players : Option (Option Int)
  min_playtime : Option (Option Int)
  max_playtime : Option (Option Int)
  year_published : Option (Option Int)
  rating : Option (Option Rat)
deriving Repr, DecidableEq

/-- The all-absent update payload (`PATCH` with body containing no
fields). -/
def BoardGameUpdate.empty : BoardGameUpdate :=
  { name := none, description := none, min_players := none,
    max_players := none, min_playtime := none, max_playtime := none,
    year_published := none, rating := none }

/-- Pydantic validation of `BoardGameUpdate`: each constraint applies
only to a non-`null` value actually present; an explicit `null` passes
validation for every field because each annotation is `Optional`. -/
def BoardGameUpdate.valid (u : BoardGameUpdate) : Bool :=
  (match u.name with
    | some (some s) => decide (1 ≤ s.length) && decide (s.length ≤ 200)
    | _ => true) &&
  (match u.min_players with
    | some (some v) => decide (1 ≤ v) && decide (v ≤ 100)
    | _ => true) &&
  (match u.max_players with
    | some (some v) => decide (1 ≤ v) && decide (v ≤ 100)
    | _ => true) &&
  (match u.min_playtime with
    | some (some v) => decide (1 ≤ v)
    | _ => true) &&
  (match u.max_playtime with
    | some (some v) => decide (1 ≤ v)
    | _ => true) &&
  (match u.year_published with
    | some (some v) => decide (1900 ≤ v) && decide (v ≤ 2100)
    | _ => true) &&
  (match u.rating with
    | some (some q) => decide (0 ≤ q) && decide (q ≤ 10)
    | _ => true)

/-- Whether `model_dump(exclude_unset=True)` is non-empty, i.e. at least
one field was present in the request body; only then does the flush emit
an `UPDATE` statement (and fire `onupdate` on `updated_at`). -/
def BoardGameUpdate.hasSet (u : BoardGameUpdate) : Bool :=
  u.name.isSome || u.description.isSome || u.min_players.isSome ||
  u.max_players.isSome || u.min_playtime.isSome || u.max_playtime.isSome ||
  u.year_published.isSome || u.rating.isSome

/-- `setattr` semantics for a nullable column: absent field keeps the old
value, present field (value or `null`) overwrites it. -/
def optApply {α : Type} (field : Option (Option α)) (old : Option α) : Option α :=
  match field with
  | none => old
  | some v => v

/-- `setattr` semantics for a `NOT NULL` column: the Python object holds
the candidate value, which may transiently be `None`; the `NOT NULL`
constraint is only enforced at commit. -/
def reqApply {α : Type} (field : Option (Option α)) (old : α) : Option α :=
  match field with
  | none => some old
  | some v => v

/-- The row inserted by `create_game`: payload fields copied verbatim,
`id` drawn from the sequence, both timestamps set to the Python-side
default `datetime.utcnow` of this request. -/
def newRow (p : BoardGameCreate) (id : Nat) (now : Nat) : BoardGameRow :=
  { id := id, name := p.name, description := p.description,
    min_players := p.min_players, max_players := p.max_players,
    min_playtime := p.min_playtime, max_playtime := p.max_playtime,
    year_published := p.year_published, rating := p.rating,
    created_at := now, updated_at := now }

/-- `POST /games` (`create_game`): Pydantic validates the body before the
handler runs (invalid → 422 and the session is never touched); then the
row is added, committed and refreshed, and returned with status 201. -/
def postGame (p : BoardGameCreate) (now : Nat) (s : DB) :
    Except ApiError BoardGameRow × DB :=
  if p.valid then
    let r := newRow p s.nextId now
    (.ok r, { rows := s.rows ++ [r], nextId := s.nextId + 1 })
  else
    (.error .validationError, s)

/-- `GET /games/{game_id}` (`get_game`): primary-key lookup via
`db.get`; absent → 404 with the detail string. -/
def getGame (gid : Nat) (s : DB) : Except ApiError BoardGameRow × DB :=
  match s.rows.find? (fun r => r.id == gid) with
  | none => (.error (.notFound (notFoundDetail gid)), s)
  | some r => (.ok r, s)

/-- The `BoardGameListResponse` schema (`schemas.py`): field `games`, a
list of `BoardGameResponse`, and field `total`, an integer. -/
structure BoardGameListResponse where
  games : List BoardGameRow
  total : Int
deriving Repr, DecidableEq

/-- The JSON object keys of a serialized `BoardGameListResponse`, in
declaration order; Pydantic serializes each model field under its own
name, and the two fields declared in `schemas.py` are `games` and
`total`. -/
def BoardGameListResponse.fieldNames : List String := ["games", "total"]

/-- The page query `select(BoardGame).offset(skip).limit(limit)` as
built by `get_games`: the two request parameters land verbatim in the
`OFFSET` and `LIMIT` clauses. -/
structure SelectPage where
  offset : Int
  limit : Int
deriving Repr, DecidableEq

/-- Executing the page query against the table in insertion order: skip
`offset` rows, return at most `limit` rows.  (Used by the claims only at
`offset ≥ 0`, `limit > 0`, where this agrees with SQL.) -/
def execPage (q : SelectPage) (rows : List BoardGameRow) : List BoardGameRow :=
  (rows.drop q.offset.toNat).take q.limit.toNat

/-- Default of the `skip` query parameter in `get_games`. -/
def defaultSkip : Int := 0

/-- Default of the `limit` query parameter in `get_games`. -/
def defaultLimit : Int := 100

/-- `GET /games` (`get_games`): run the page query, run the unfiltered
`COUNT`, wrap both in the list envelope.  No validation of `skip` or
`limit` is performed and no error path exists. -/
def getGames (skip : Int) (limit : Int) (s : DB) :
    Except ApiError BoardGameListResponse × DB :=
  let games := execPage { offset := skip, limit := limit } s.rows
  let total : Int := s.rows.length
  (.ok { games := games, total := total }, s)

/-- `GET /games` with both query parameters omitted. -/
def getGamesDefault (s : DB) : Except ApiError BoardGameListResponse × DB :=
  getGames defaultSkip defaultLimit s

/-- The row as it stands after `update_game`'s `setattr` loop and commit,
given the committed values `name`, `minP`, `maxP` of the three `NOT NULL`
columns: present fields overwritten, absent fields untouched, `id` and
`created_at` untouched, and `updated_at` refreshed by `onupdate` exactly
when the flush emitted an `UPDATE` (at least one field present). -/
def updatedRow (u : BoardGameUpdate) (r : BoardGameRow) (now : Nat)
    (name : String) (minP maxP : Int) : BoardGameRow :=
  { id := r.id, name := name,
    description := optApply u.description r.description,
    min_players := minP, max_players := maxP,
    min_playtime := optApply u.min_playtime r.min_playtime,
    max_playtime := optApply u.max_playtime r.max_playtime,
    year_published := optApply u.year_published r.year_published,
    rating := optApply u.rating r.rating,
    created_at := r.created_at,
    updated_at := if u.hasSet then now else r.updated_at }

/-- `PATCH /games/{game_id}` (`update_game`): Pydantic validates the body
(invalid → 422); `db.get` looks the row up (absent → 404); the fields of
`model_dump(exclude_unset=True)` are applied by `setattr`; `commit`
enforces the `NOT NULL` constraints (violating candidate → integrity
error, transaction rolled back, nothing persisted); otherwise the
flushed `UPDATE` fires `onupdate`, refreshing `updated_at`, unless no
field was present so no `UPDATE` is emitted at all. -/
def updateGame (gid : Nat) (u : BoardGameUpdate) (now : Nat) (s : DB) :
    Except ApiError BoardGameRow × DB :=
  if u.valid then
    match s.rows.find? (fun r => r.id == gid) with
    | none => (.error (.notFound (notFoundDetail gid)), s)
    | some r =>
      match reqApply u.name r.name, reqApply u.min_players r.min_players,
            reqApply u.max_players r.max_players with
      | some name, some minP, some maxP =>
        let r' := updatedRow u r now name minP maxP
        (.ok r',
         { rows := s.rows.map (fun x => if x.id == gid then r' else x),
           nextId := s.nextId })
      | _, _, _ => (.error .persistenceError, s)
  else
    (.error .validationError, s)

/-- `DELETE /games/{game_id}` (`delete_game`): `db.get` (absent → 404),
then `db.delete` of the fetched object and `commit` (204, empty body). -/
def deleteGame (gid : Nat) (s : DB) : Except ApiError Unit × DB :=
  match s.rows.find? (fun r => r.id == gid) with
  | none => (.error (.notFound (notFoundDetail gid)), s)
  | some _ =>
    (.ok (), { rows := s.rows.eraseP (fun r => r.id == gid), nextId := s.nextId })

/-- States reachable from the freshly initialised database by the three
mutating endpoints.  Each mutating request carries a `now` no earlier
than any timestamp already stored (the wall clock never runs
backwards). -/
inductive Reachable : DB → Prop where
  | init : Reachable DB.empty
  | create (p : BoardGameCreate) (now : Nat) (s : DB) :
      Reachable s →
      (∀ r ∈ s.rows, r.created_at ≤ now ∧ r.updated_at ≤ now) →
      Reachable (postGame p now s).2
  | update (gid : Nat) (u : BoardGameUpdate) (now : Nat) (s : DB) :
      Reachable s →
      (∀ r ∈ s.rows, r.created_at ≤ now ∧ r.updated_at ≤ now) →
      Reachable (updateGame gid u now s).2
  | delete (gid : Nat) (s : DB) :
      Reachable s →
      Reachable (deleteGame gid s).2

/-- Structural database invariants: every stored primary key is below the
sequence value, primary keys are pairwise distinct, and no row was
updated before it was created. -/
def DB.wf (s : DB) : Prop :=
  (∀ r ∈ s.rows, r.id < s.nextId) ∧
  (s.rows.map (fun r => r.id)).Nodup ∧
  (∀ r ∈ s.rows, r.created_at ≤ r.updated_at)

/-! Concrete fixtures for witnesses and counterexamples, following the
spec's running scenario (`Create({name:"Catan", min_players:3,
max_players:4})`). -/

/-- The spec's concrete Create payload for "Catan". -/
def catanP : BoardGameCreate :=
  { name := "Catan", description := none, min_players := 3, max_players := 4,
    min_playtime := none, max_playtime := none, year_published := none,
    rating := none }

/-- Boundary probe: `min_players = 0`. -/
def catanMin0 : BoardGameCreate := { catanP with min_players := 0 }

/-- Boundary probe: `min_players = 1`. -/
def catanMin1 : BoardGameCreate := { catanP with min_players := 1 }

/-- Boundary probe: `rating = 10.0`. -/
def catanRating10 : BoardGameCreate := { catanP with rating := some 10 }

/-- Boundary probe: `rating = 10.1`, i.e. the rational 101/10 (it
exceeds the bound both as the binary64 float and as the exact
rational). -/
def catanRating101 : BoardGameCreate :=
  { catanP with rating := some (Rat.divInt 101 10) }

/-- The Catan row as stored after the spec's scenario Create, at clock
tick 5. -/
def catanRow : BoardGameRow :=
  { id := 1, name := "Catan", description := none, min_players := 3,
    max_players := 4, min_playtime := none, max_playtime := none,
    year_published := none, rating := none, created_at := 5, updated_at := 5 }

/-- A database holding exactly the Catan row. -/
def catanDB : DB := { rows := [catanRow], nextId := 2 }

/-- The spec's scenario update payload: `{"max_players": 6}`. -/
def updMax6 : BoardGameUpdate :=
  { BoardGameUpdate.empty with max_players := some (some 6) }

/-- Update payload setting the `NOT NULL` column `name` to an explicit
`null`. -/
def updNameNull : BoardGameUpdate :=
  { BoardGameUpdate.empty with name := some none }

/-- Update payload setting the nullable column `description` to an
explicit `null`. -/
def updDescNull : BoardGameUpdate :=
  { BoardGameUpdate.empty with description := some none }

/-- The Catan row after the scenario update `{"max_players": 6}` at
clock tick 9. -/
def catanRowUpd : BoardGameRow :=
  { catanRow with max_players := 6, updated_at := 9 }

/-- The database after the scenario update. -/
def catanDBUpd : DB := { rows := [catanRowUpd], nextId := 2 }

/-- The database after deleting the Catan row: the table is empty but
the sequence keeps its value. -/
def delDB : DB := { rows := [], nextId := 2 }

/-- A stored row carrying a non-null `description`. -/
def elfRow : BoardGameRow := { catanRow with description := some "classic" }

/-- A database holding exactly `elfRow`. -/
def elfDB : DB := { rows := [elfRow], nextId := 2 }

/-- `elfRow` after `PATCH` with `{"description": null}` at clock tick 9:
the description is cleared. -/
def elfRowCleared : BoardGameRow :=
  { elfRow with description := none, updated_at := 9 }

/-! Unfolding lemmas for the five handlers, and primary-key bookkeeping. -/

theorem postGame_valid {p : BoardGameCreate} (now : Nat) (s : DB)
    (h : p.valid = true) :
    postGame p now s =
      (.ok (newRow p s.nextId now),
       { rows := s.rows ++ [newRow p s.nextId now], nextId := s.nextId + 1 }) := by
  simp [postGame, h]

theorem postGame_invalid {p : BoardGameCreate} (now : Nat) (s : DB)
    (h : p.valid = false) :
    postGame p now s = (.error .validationError, s) := by
  simp [postGame, h]

theorem getGame_found {gid : Nat} {s : DB} {r : BoardGameRow}
    (h : s.rows.find? (fun x => x.id == gid) = some r) :
    getGame gid s = (.ok r, s) := by
  simp [getGame, h]

theorem getGame_missing {gid : Nat} {s : DB}
    (h : s.rows.find? (fun x => x.id == gid) = none) :
    getGame gid s = (.error (.notFound (notFoundDetail gid)), s) := by
  simp [getGame, h]

theorem updateGame_invalid {gid : Nat} {u : BoardGameUpdate} {now : Nat} {s : DB}
    (h : u.valid = false) :
    updateGame gid u now s = (.error .validationError, s) := by
  simp [updateGame, h]

theorem updateGame_notFound {gid : Nat} {u : BoardGameUpdate} {now : Nat} {s : DB}
    (hv : u.valid = true)
    (hf : s.rows.find? (fun x => x.id == gid) = none) :
    updateGame gid u now s = (.error (.notFound (notFoundDetail gid)), s) := by
  simp [updateGame, hv, hf]

theorem updateGame_ok {gid : Nat} {u : BoardGameUpdate} {now : Nat} {s : DB}
    {r : BoardGameRow} {name : String} {minP maxP : Int}
    (hv : u.valid = true)
    (hf : s.rows.find? (fun x => x.id == gid) = some r)
    (hn : reqApply u.name r.name = some name)
    (hmn : reqApply u.min_players r.min_players = some minP)
    (hmx : reqApply u.max_players r.max_players = some maxP) :
    updateGame gid u now s =
      (.ok (updatedRow u r now name minP maxP),
       { rows := s.rows.map
           (fun x => if x.id == gid then updatedRow u r now name minP maxP else x),
         nextId := s.nextId }) := by
  simp [updateGame, hv, hf, hn, hmn, hmx]

theorem updateGame_nameNull {gid : Nat} {u : BoardGameUpdate} {now : Nat} {s : DB}
    {r : BoardGameRow}
    (hv : u.valid = true)
    (hf : s.rows.find? (fun x => x.id == gid) = some r)
    (hn : u.name = some none) :
    updateGame gid u now s = (.error .persistenceError, s) := by
  simp [updateGame, hv, hf, reqApply, hn]

theorem deleteGame_found {gid : Nat} {s : DB} {r : BoardGameRow}
    (h : s.rows.find? (fun x => x.id == gid) = some r) :
    deleteGame gid s =
      (.ok (), { rows := s.rows.eraseP (fun x => x.id == gid), nextId := s.nextId }) := by
  simp [deleteGame, h]

theorem deleteGame_missing {gid : Nat} {s : DB}
    (h : s.rows.find? (fun x => x.id == gid) = none) :
    deleteGame gid s = (.error (.notFound (notFoundDetail gid)), s) := by
  simp [deleteGame, h]

theorem find?_id_eq_none {l : List BoardGameRow} {gid : Nat}
    (h : ∀ r ∈ l, r.id ≠ gid) :
    l.find? (fun x => x.id == gid) = none := by
  rw [List.find?_eq_none]
  intro x hx
  simpa using h x hx

theorem find?_id_mem {l : List BoardGameRow} {gid : Nat} {r : BoardGameRow}
    (h : l.find? (fun x => x.id == gid) = some r) :
    r ∈ l ∧ r.id = gid :=
  ⟨List.mem_of_find?_eq_some h, by simpa using List.find?_some h⟩

theorem ids_map_replace {l : List BoardGameRow} {gid : Nat} {r' : BoardGameRow}
    (h : r'.id = gid) :
    (l.map (fun x => if x.id == gid then r' else x)).map (fun x => x.id) =
      l.map (fun x => x.id) := by
  rw [List.map_map]
  apply List.map_congr_left
  intro a _
  by_cases ha : a.id = gid
  · simp [Function.comp, ha, h]
  · simp [Function.comp, ha]

theorem find?_eraseP_id_eq_none {l : List BoardGameRow} {gid : Nat}
    (h : (l.map (fun x => x.id)).Nodup) :
    (l.eraseP (fun x => x.id == gid)).find? (fun x => x.id == gid) = none := by
  induction l with
  | nil => rfl
  | cons a l ih =>
    simp only [List.map_cons, List.nodup_cons] at h
    by_cases ha : a.id = gid
    · rw [List.eraseP_cons_of_pos (by simp [ha])]
      rw [List.find?_eq_none]
      intro x hx
      simp only [beq_iff_eq]
      intro hxid
      exact h.1 (by rw [ha, ← hxid]; exact List.mem_map_of_mem _ hx)
    · rw [List.eraseP_cons_of_neg (by simp [ha]),
        List.find?_cons_of_neg _ (by simp [ha])]
      exact ih h.2

theorem find?_replace {l : List BoardGameRow} {gid : Nat} {r r' : BoardGameRow}
    (hf : l.find? (fun x => x.id == gid) = some r)
    (hid : r'.id = gid) :
    (l.map (fun x => if x.id == gid then r' else x)).find? (fun x => x.id == gid) =
      some r' := by
  induction l with
  | nil => simp at hf
  | cons a l ih =>
    by_cases ha : a.id = gid
    · simp [ha, hid]
    · rw [List.find?_cons_of_neg _ (by simp [ha])] at hf
      simp only [List.map_cons]
      rw [if_neg (by simp [ha])]
      rw [List.find?_cons_of_neg _ (by simp [ha])]
      exact ih hf

/-- Inversion of a successful `update_game`: the request body was valid,
the three `NOT NULL` candidates were non-null, the returned row is the
updated row and the new table replaces the old row by it. -/
theorem updateGame_ok_inv {gid : Nat} {u : BoardGameUpdate} {now : Nat} {s : DB}
    {r r' : BoardGameRow} {s' : DB}
    (hf : s.rows.find? (fun x => x.id == gid) = some r)
    (hok : updateGame gid u now s = (.ok r', s')) :
    ∃ nm mn mx, u.valid = true ∧
      reqApply u.name r.name = some nm ∧
      reqApply u.min_players r.min_players = some mn ∧
      reqApply u.max_players r.max_players = some mx ∧
      r' = updatedRow u r now nm mn mx ∧
      s' = { rows := s.rows.map
               (fun x => if x.id == gid then updatedRow u r now nm mn mx else x),
             nextId := s.nextId } := by
  by_cases hv : u.valid
  · cases hn : reqApply u.name r.name with
    | none =>
      rw [show updateGame gid u now s = (.error .persistenceError, s) by
        simp [updateGame, hv, hf, hn]] at hok
      exact Except.noConfusion (congrArg Prod.fst hok)
    | some nm =>
      cases hmn : reqApply u.min_players r.min_players with
      | none =>
        rw [show updateGame gid u now s = (.error .persistenceError, s) by
          simp [updateGame, hv, hf, hn, hmn]] at hok
        exact Except.noConfusion (congrArg Prod.fst hok)
      | some mn =>
        cases hmx : reqApply u.max_players r.max_players with
        | none =>
          rw [show updateGame gid u now s = (.error .persistenceError, s) by
            simp [updateGame, hv, hf, hn, hmn, hmx]] at hok
          exact Except.noConfusion (congrArg Prod.fst hok)
        | some mx =>
          rw [updateGame_ok hv hf hn hmn hmx] at hok
          have h1 := congrArg Prod.fst hok
          have h2 := congrArg Prod.snd hok
          simp only at h1 h2
          refine ⟨nm, mn, mx, hv, rfl, rfl, rfl, ?_, ?_⟩
          · exact (Except.ok.inj h1).symm
          · exact h2.symm
  · rw [updateGame_invalid (by simpa using hv)] at hok
    exact Except.noConfusion (congrArg Prod.fst hok)

/-- The structural invariants hold in every reachable state: issued
primary keys stay below the sequence, keys are pairwise distinct, and
`created_at ≤ updated_at` for every row. -/
theorem reachable_wf {s : DB} (h : Reachable s) : s.wf := by
  induction h with
  | init =>
    refine ⟨?_, ?_, ?_⟩ <;> simp [DB.empty, DB.wf]
  | create p now s hr hclock ih =>
    obtain ⟨hid, hnd, hts⟩ := ih
    by_cases hv : p.valid
    · rw [postGame_valid now s hv]
      refine ⟨?_, ?_, ?_⟩
      · intro r hrmem
        rcases List.mem_append.mp hrmem with hmem | hmem
        · exact Nat.lt_succ_of_lt (hid r hmem)
        · simp only [List.mem_singleton] at hmem
          subst hmem
          simp [newRow]
      · simp only [List.map_append, List.map_singleton]
        rw [List.nodup_append]
        refine ⟨hnd, List.nodup_singleton _, ?_⟩
        intro a ha hb
        simp only [List.mem_map] at ha
        obtain ⟨r, hrmem, hrid⟩ := ha
        simp only [newRow, List.mem_singleton] at hb
        subst hrid
        exact absurd hb (Nat.ne_of_lt (hid r hrmem))
      · intro r hrmem
        rcases List.mem_append.mp hrmem with hmem | hmem
        · exact hts r hmem
        · simp only [List.mem_singleton] at hmem
          subst hmem
          simp [newRow]
    · rw [postGame_invalid now s (by simpa using hv)]
      exact ⟨hid, hnd, hts⟩
  | update gid u now s hr hclock ih =>
    obtain ⟨hid, hnd, hts⟩ := ih
    by_cases hv : u.valid
    · cases hf : s.rows.find? (fun x => x.id == gid) with
      | none =>
        rw [updateGame_notFound hv hf]
        exact ⟨hid, hnd, hts⟩
      | some r =>
        obtain ⟨hrmem, hrid⟩ := find?_id_mem hf
        cases hn : reqApply u.name r.name with
        | none =>
          have hstep : updateGame gid u now s = (.error .persistenceError, s) := by
            simp [updateGame, hv, hf, hn]
          rw [hstep]
          exact ⟨hid, hnd, hts⟩
        | some nm =>
          cases hmn : reqApply u.min_players r.min_players with
          | none =>
            have hstep : updateGame gid u now s = (.error .persistenceError, s) := by
              simp [updateGame, hv, hf, hn, hmn]
            rw [hstep]
            exact ⟨hid, hnd, hts⟩
          | some mn =>
            cases hmx : reqApply u.max_players r.max_players with
            | none =>
              have hstep : updateGame gid u now s = (.error .persistenceError, s) := by
                simp [updateGame, hv, hf, hn, hmn, hmx]
              rw [hstep]
              exact ⟨hid, hnd, hts⟩
            | some mx =>
              rw [updateGame_ok hv hf hn hmn hmx]
              have hrid' : (updatedRow u r now nm mn mx).id = gid := by
                simpa [updatedRow] using hrid
              refine ⟨?_, ?_, ?_⟩
              · intro x' hx'
                simp only [List.mem_map] at hx'
                obtain ⟨x, hxmem, hxeq⟩ := hx'
                subst hxeq
                by_cases hxid : x.id = gid
                · simp only [hxid, beq_self_eq_true, if_true, updatedRow]
                  exact hid r hrmem
                · simp only [beq_iff_eq, hxid, if_false]
                  exact hid x hxmem
              · rw [ids_map_replace hrid']
                exact hnd
              · intro x' hx'
                simp only [List.mem_map] at hx'
                obtain ⟨x, hxmem, hxeq⟩ := hx'
                subst hxeq
                by_cases hxid : x.id = gid
                · simp only [hxid, beq_self_eq_true, if_true, updatedRow]
                  by_cases hset : u.hasSet
                  · simp only [hset, if_true]
                    exact (hclock r hrmem).1
                  · simp only [Bool.not_eq_true] at hset
                    simp only [hset, Bool.false_eq_true, if_false]
                    exact hts r hrmem
                · simp only [beq_iff_eq, hxid, if_false]
                  exact hts x hxmem
    · rw [updateGame_invalid (by simpa using hv)]
      exact ⟨hid, hnd, hts⟩
  | delete gid s hr ih =>
    obtain ⟨hid, hnd, hts⟩ := ih
    cases hf : s.rows.find? (fun x => x.id == gid) with
    | none =>
      rw [deleteGame_missing hf]
      exact ⟨hid, hnd, hts⟩
    | some r =>
      rw [deleteGame_found hf]
      have hsub : List.Sublist (s.rows.eraseP (fun x => x.id == gid)) s.rows :=
        List.eraseP_sublist _
      refine ⟨?_, ?_, ?_⟩
      · intro x hx
        exact hid x (hsub.subset hx)
      · exact (hsub.map _).nodup hnd
      · intro x hx
        exact hts x (hsub.subset hx)

/-! Claim theorems. -/

/-- Claim C4: for an identifier carried by no row, `GetOne`, `Update`
(with a valid body) and `Delete` all fail with the 404 NotFound error
whose detail names the identifier, and leave the table unchanged. -/
theorem notFound_consistency (gid : Nat) (s : DB) (u : BoardGameUpdate) (now : Nat)
    (hids : ∀ r ∈ s.rows, r.id ≠ gid) (hu : u.valid = true) :
    getGame gid s = (.error (.notFound (notFoundDetail gid)), s) ∧
    updateGame gid u now s = (.error (.notFound (notFoundDetail gid)), s) ∧
    deleteGame gid s = (.error (.notFound (notFoundDetail gid)), s) ∧
    (ApiError.notFound (notFoundDetail gid)).status = 404 ∧
    notFoundDetail gid = "Board game with ID " ++ toString gid ++ " not found" := by
  have hf := find?_id_eq_none hids
  exact ⟨getGame_missing hf, updateGame_notFound hu hf, deleteGame_missing hf,
    rfl, rfl⟩

/-- Witness for C4 at the fresh identifier 99 against the Catan
database. -/
theorem notFound_consistency_witness :
    getGame 99 catanDB = (.error (.notFound (notFoundDetail 99)), catanDB) ∧
    updateGame 99 updMax6 7 catanDB =
      (.error (.notFound (notFoundDetail 99)), catanDB) ∧
    deleteGame 99 catanDB = (.error (.notFound (notFoundDetail 99)), catanDB) := by
  have h := notFound_consistency 99 catanDB updMax6 7 (by decide) (by decide)
  exact ⟨h.1, h.2.1, h.2.2.1⟩

/-- Claim C6: `min_players = 0` fails validation while `min_players = 1`
passes; `rating = 10.1` fails while `rating = 10.0` passes; and every
invalid Create payload is rejected before the session is touched, so the
database is returned unchanged. -/
theorem validation_boundaries :
    catanMin0.valid = false ∧
    (postGame catanMin1 0 DB.empty).1 = .ok (newRow catanMin1 1 0) ∧
    catanRating101.valid = false ∧
    (postGame catanRating10 0 DB.empty).1 = .ok (newRow catanRating10 1 0) ∧
    (∀ (p : BoardGameCreate) (now : Nat) (s : DB),
      p.valid = false → postGame p now s = (.error .validationError, s)) := by
  refine ⟨by decide, by decide, by decide, by decide, ?_⟩
  intro p now s h
  exact postGame_invalid now s h

/-- Witness for C6: the `min_players = 0` payload is rejected with no
write against the empty database. -/
theorem validation_boundaries_witness :
    postGame catanMin0 3 DB.empty = (.error .validationError, DB.empty) :=
  validation_boundaries.2.2.2.2 catanMin0 3 DB.empty (by decide)

/-- Claim C9 counterexample: the list envelope declared in `schemas.py`
has no field named `items`; its fields are `games` and `total`. -/
theorem listResponse_items_counterexample :
    BoardGameListResponse.fieldNames ≠ ["items", "total"] ∧
    "items" ∉ BoardGameListResponse.fieldNames := by
  decide

/-- Claim C9 (amended): every `List` invocation returns a
`BoardGameListResponse` envelope whose two fields are `games`, the list
of response objects, and `total`, an integer. -/
theorem listResponse_envelope_amended (skip limit : Int) (s : DB) :
    getGames skip limit s =
      (.ok { games := execPage { offset := skip, limit := limit } s.rows,
             total := (s.rows.length : Int) }, s) ∧
    BoardGameListResponse.fieldNames = ["games", "total"] :=
  ⟨rfl, rfl⟩

/-- Claim C10: omitted query parameters default to `skip = 0` and
`limit = 100`, and for every integer `skip` and `limit` — negative and
non-positive values included — `get_games` performs no validation and
passes both verbatim into the `OFFSET` and `LIMIT` of the page query,
never rejecting the request. -/
theorem list_defaults_no_validation :
    defaultSkip = 0 ∧ defaultLimit = 100 ∧
    (∀ s : DB, getGamesDefault s = getGames 0 100 s) ∧
    (∀ (skip limit : Int) (s : DB),
      getGames skip limit s =
        (.ok { games := execPage { offset := skip, limit := limit } s.rows,
               total := (s.rows.length : Int) }, s)) :=
  ⟨rfl, rfl, fun _ => rfl, fun _ _ _ => rfl⟩

/-- Claim C3: with `skip ≥ 0` and `limit > 0`, `List` returns exactly
the rows at positions `[skip, skip+limit)` of the insertion order and a
`total` equal to the full table cardinality, whatever the page bounds;
`List(0, N)` returns all `N` rows and `List(N, limit)` returns none. -/
theorem list_pagination_consistency (s : DB) (skip limit : Int)
    (hskip : 0 ≤ skip) (hlimit : 0 < limit) :
    getGames skip limit s =
      (.ok { games := (s.rows.drop skip.toNat).take limit.toNat,
             total := (s.rows.length : Int) }, s) ∧
    (getGames 0 (s.rows.length : Int) s).1 =
      .ok { games := s.rows, total := (s.rows.length : Int) } ∧
    (getGames (s.rows.length : Int) limit s).1 =
      .ok { games := [], total := (s.rows.length : Int) } := by
  refine ⟨rfl, ?_, ?_⟩
  · simp [getGames, execPage]
  · simp [getGames, execPage]

/-- Witness for C3 against the one-row Catan database. -/
theorem list_pagination_consistency_witness :
    getGames 0 100 catanDB =
      (.ok { games := [catanRow], total := 1 }, catanDB) := by
  rw [(list_pagination_consistency catanDB 0 100 (by decide) (by decide)).1]
  decide

/-- Claim C1: creating from a valid payload in any reachable state
returns a row whose eight payload fields equal the payload's, carrying
the freshly issued identifier and system timestamps, and `GetOne` on
that identifier returns exactly this row. -/
theorem create_getOne_roundtrip (p : BoardGameCreate) (now : Nat) (s : DB)
    (hreach : Reachable s) (hp : p.valid = true) :
    postGame p now s =
      (.ok (newRow p s.nextId now),
       { rows := s.rows ++ [newRow p s.nextId now], nextId := s.nextId + 1 }) ∧
    getGame (newRow p s.nextId now).id (postGame p now s).2 =
      (.ok (newRow p s.nextId now), (postGame p now s).2) ∧
    (newRow p s.nextId now).name = p.name ∧
    (newRow p s.nextId now).description = p.description ∧
    (newRow p s.nextId now).min_players = p.min_players ∧
    (newRow p s.nextId now).max_players = p.max_players ∧
    (newRow p s.nextId now).min_playtime = p.min_playtime ∧
    (newRow p s.nextId now).max_playtime = p.max_playtime ∧
    (newRow p s.nextId now).year_published = p.year_published ∧
    (newRow p s.nextId now).rating = p.rating ∧
    (newRow p s.nextId now).id = s.nextId ∧
    (newRow p s.nextId now).created_at = now ∧
    (newRow p s.nextId now).updated_at = now := by
  have hwf := reachable_wf hreach
  have hnone : s.rows.find? (fun x => x.id == s.nextId) = none :=
    find?_id_eq_none (fun r hr => Nat.ne_of_lt (hwf.1 r hr))
  have hpost := postGame_valid now s hp
  refine ⟨hpost, ?_, rfl, rfl, rfl, rfl, rfl, rfl, rfl, rfl, rfl, rfl, rfl⟩
  rw [hpost]
  apply getGame_found
  show (s.rows ++ [newRow p s.nextId now]).find?
      (fun x => x.id == (newRow p s.nextId now).id) = some (newRow p s.nextId now)
  rw [List.find?_append]
  have hone : [newRow p s.nextId now].find?
      (fun x => x.id == s.nextId) = some (newRow p s.nextId now) := by
    simp [newRow]
  rw [show (fun (x : BoardGameRow) => x.id == (newRow p s.nextId now).id) =
      (fun x => x.id == s.nextId) from rfl, hnone, hone]
  rfl

/-- Witness for C1: the Catan payload created in the empty (reachable)
database is returned verbatim by `GetOne` of the new identifier. -/
theorem create_getOne_roundtrip_witness :
    getGame (newRow catanP DB.empty.nextId 7).id (postGame catanP 7 DB.empty).2 =
      (.ok (newRow catanP DB.empty.nextId 7), (postGame catanP 7 DB.empty).2) :=
  (create_getOne_roundtrip catanP 7 DB.empty Reachable.init (by decide)).2.1

/-- Claim C2: after a successful partial update, every field present in
the payload holds exactly the payload's value, every payload-settable
field absent from it is unchanged, and `id` and `created_at` are
unchanged (`updated_at` is system-managed and excluded: it is refreshed
on mutation); the updated row is what `GetOne` then returns. -/
theorem update_partial_frame (gid : Nat) (u : BoardGameUpdate) (now : Nat)
    (s : DB) (r r' : BoardGameRow) (s' : DB)
    (hf : s.rows.find? (fun x => x.id == gid) = some r)
    (hok : updateGame gid u now s = (.ok r', s')) :
    r'.id = r.id ∧
    r'.created_at = r.created_at ∧
    (∀ v, u.name = some (some v) → r'.name = v) ∧
    (u.name = none → r'.name = r.name) ∧
    (∀ v, u.description = some v → r'.description = v) ∧
    (u.description = none → r'.description = r.description) ∧
    (∀ v, u.min_players = some (some v) → r'.min_players = v) ∧
    (u.min_players = none → r'.min_players = r.min_players) ∧
    (∀ v, u.max_players = some (some v) → r'.max_players = v) ∧
    (u.max_players = none → r'.max_players = r.max_players) ∧
    (∀ v, u.min_playtime = some v → r'.min_playtime = v) ∧
    (u.min_playtime = none → r'.min_playtime = r.min_playtime) ∧
    (∀ v, u.max_playtime = some v → r'.max_playtime = v) ∧
    (u.max_playtime = none → r'.max_playtime = r.max_playtime) ∧
    (∀ v, u.year_published = some v → r'.year_published = v) ∧
    (u.year_published = none → r'.year_published = r.year_published) ∧
    (∀ v, u.rating = some v → r'.rating = v) ∧
    (u.rating = none → r'.rating = r.rating) ∧
    getGame gid s' = (.ok r', s') := by
  obtain ⟨nm, mn, mx, hv, hn, hmn, hmx, hr', hs'⟩ := updateGame_ok_inv hf hok
  obtain ⟨hrmem, hrid⟩ := find?_id_mem hf
  subst hr'
  subst hs'
  refine ⟨rfl, rfl, ?_, ?_, ?_, ?_, ?_, ?_, ?_, ?_, ?_, ?_, ?_, ?_, ?_, ?_, ?_, ?_, ?_⟩
  · intro v hv'
    rw [hv'] at hn
    simp only [reqApply] at hn
    simp [updatedRow, ← Option.some.inj hn]
  · intro hv'
    rw [hv'] at hn
    simp only [reqApply] at hn
    simp [updatedRow, ← Option.some.inj hn]
  · intro v hv'
    simp [updatedRow, optApply, hv']
  · intro hv'
    simp [updatedRow, optApply, hv']
  · intro v hv'
    rw [hv'] at hmn
    simp only [reqApply] at hmn
    simp [updatedRow, ← Option.some.inj hmn]
  · intro hv'
    rw [hv'] at hmn
    simp only [reqApply] at hmn
    simp [updatedRow, ← Option.some.inj hmn]
  · intro v hv'
    rw [hv'] at hmx
    simp only [reqApply] at hmx
    simp [updatedRow, ← Option.some.inj hmx]
  · intro hv'
    rw [hv'] at hmx
    simp only [reqApply] at hmx
    simp [updatedRow, ← Option.some.inj hmx]
  · intro v hv'
    simp [updatedRow, optApply, hv']
  · intro hv'
    simp [updatedRow, optApply, hv']
  · intro v hv'
    simp [updatedRow, optApply, hv']
  · intro hv'
    simp [updatedRow, optApply, hv']
  · intro v hv'
    simp [updatedRow, optApply, hv']
  · intro hv'
    simp [updatedRow, optApply, hv']
  · intro v hv'
    simp [updatedRow, optApply, hv']
  · intro hv'
    simp [updatedRow, optApply, hv']
  · apply getGame_found
    exact find?_replace hf (by simpa [updatedRow] using hrid)

/-- Witness for C2: the scenario update `{"max_players": 6}` against the
Catan row keeps `min_players`, `id` and `created_at` and sets
`max_players` to 6. -/
theorem update_partial_frame_witness :
    catanRowUpd.id = catanRow.id ∧
    catanRowUpd.created_at = catanRow.created_at ∧
    catanRowUpd.max_players = 6 ∧
    catanRowUpd.min_players = catanRow.min_players := by
  have h := update_partial_frame 1 updMax6 9 catanDB catanRow catanRowUpd catanDBUpd
    (by decide) (by decide)
  exact ⟨h.1, h.2.1, h.2.2.2.2.2.2.2.2.1 6 rfl, h.2.2.2.2.2.2.2.1 rfl⟩

/-- Claim C5: once a delete succeeded in a reachable state, both a
subsequent `GetOne` and a second `Delete` of the same identifier fail
with the 404 NotFound error instead of crashing. -/
theorem delete_finality (gid : Nat) (s s' : DB)
    (hreach : Reachable s)
    (hdel : deleteGame gid s = (.ok (), s')) :
    getGame gid s' = (.error (.notFound (notFoundDetail gid)), s') ∧
    deleteGame gid s' = (.error (.notFound (notFoundDetail gid)), s') := by
  obtain ⟨-, hnd, -⟩ := reachable_wf hreach
  cases hf : s.rows.find? (fun x => x.id == gid) with
  | none =>
    rw [deleteGame_missing hf] at hdel
    exact Except.noConfusion (congrArg Prod.fst hdel)
  | some r =>
    rw [deleteGame_found hf] at hdel
    have hs' := (congrArg Prod.snd hdel).symm
    simp only at hs'
    subst hs'
    have hnone : (s.rows.eraseP (fun x => x.id == gid)).find?
        (fun x => x.id == gid) = none := find?_eraseP_id_eq_none hnd
    exact ⟨getGame_missing hnone, deleteGame_missing hnone⟩

/-- `catanDB` is reachable: it is the result of the scenario Create in
the empty database at clock tick 5. -/
theorem catanDB_reachable : Reachable catanDB :=
  Reachable.create catanP 5 DB.empty Reachable.init (by simp [DB.empty])

/-- Witness for C5: after deleting the Catan row, `GetOne(1)` and a
second `Delete(1)` both 404. -/
theorem delete_finality_witness :
    getGame 1 delDB = (.error (.notFound (notFoundDetail 1)), delDB) ∧
    deleteGame 1 delDB = (.error (.notFound (notFoundDetail 1)), delDB) :=
  delete_finality 1 catanDB delDB catanDB_reachable (by decide)

/-- Claim C7: in every reachable state every row satisfies
`created_at ≤ updated_at`; a successful update carrying at least one
field, issued strictly after the row's last write, changes `updated_at`
(to the request's clock); and a successful create returns a row with
`created_at = updated_at`. -/
theorem timestamps_invariant :
    (∀ s : DB, Reachable s → ∀ r ∈ s.rows, r.created_at ≤ r.updated_at) ∧
    (∀ (gid : Nat) (u : BoardGameUpdate) (now : Nat) (s : DB)
        (r r' : BoardGameRow) (s' : DB),
      s.rows.find? (fun x => x.id == gid) = some r →
      u.hasSet = true →
      r.updated_at < now →
      updateGame gid u now s = (.ok r', s') →
      r'.updated_at = now ∧ r'.updated_at ≠ r.updated_at) ∧
    (∀ (p : BoardGameCreate) (now : Nat) (s : DB) (r : BoardGameRow) (s' : DB),
      postGame p now s = (.ok r, s') → r.created_at = r.updated_at) := by
  refine ⟨fun s hs => (reachable_wf hs).2.2, ?_, ?_⟩
  · intro gid u now s r r' s' hf hset hlt hok
    obtain ⟨nm, mn, mx, hv, hn, hmn, hmx, hr', hs'⟩ := updateGame_ok_inv hf hok
    subst hr'
    constructor
    · simp [updatedRow, hset]
    · simp only [updatedRow, hset, if_true]
      exact Ne.symm (Nat.ne_of_lt hlt)
  · intro p now s r s' hok
    by_cases hp : p.valid
    · rw [postGame_valid now s hp] at hok
      have h1 := Except.ok.inj (congrArg Prod.fst hok)
      rw [← h1]
      simp [newRow]
    · rw [postGame_invalid now s (by simpa using hp)] at hok
      exact Except.noConfusion (congrArg Prod.fst hok)

/-- Witness for C7: the scenario update at tick 9 moves `updated_at`
from 5 to 9. -/
theorem timestamps_invariant_witness :
    catanRowUpd.updated_at = 9 ∧ catanRowUpd.updated_at ≠ catanRow.updated_at :=
  timestamps_invariant.2.1 1 updMax6 9 catanDB catanRow catanRowUpd catanDBUpd
    (by decide) (by decide) (by decide) (by decide)

/-- Claim C8 counterexample: `PATCH /games/1` with body
`{"name": null}` against the Catan database does not clear the stored
value; the commit violates the `NOT NULL` constraint on `name`, the
request fails with a persistence error and the table still holds the
name "Catan". -/
theorem update_explicit_null_counterexample :
    updateGame 1 updNameNull 9 catanDB = (.error .persistenceError, catanDB) ∧
    (updateGame 1 updNameNull 9 catanDB).2.rows.map (fun r => r.name) =
      ["Catan"] := by
  decide

/-- Claim C8 (amended): for the five nullable columns an absent field is
left unchanged and an explicit `null` clears the stored value, the two
payloads being distinguished; but for the `NOT NULL` columns `name`,
`min_players` and `max_players`, an explicit `null` passes validation
and is then rejected by the database at commit, so the stored value is
not cleared and the request fails with a persistence error. -/
theorem update_absent_vs_null_amended :
    (∀ (gid : Nat) (u : BoardGameUpdate) (now : Nat) (s : DB)
        (r r' : BoardGameRow) (s' : DB),
      s.rows.find? (fun x => x.id == gid) = some r →
      updateGame gid u now s = (.ok r', s') →
      ((u.description = some none → r'.description = none) ∧
       (u.description = none → r'.description = r.description) ∧
       (u.min_playtime = some none → r'.min_playtime = none) ∧
       (u.min_playtime = none → r'.min_playtime = r.min_playtime) ∧
       (u.max_playtime = some none → r'.max_playtime = none) ∧
       (u.max_playtime = none → r'.max_playtime = r.max_playtime) ∧
       (u.year_published = some none → r'.year_published = none) ∧
       (u.year_published = none → r'.year_published = r.year_published) ∧
       (u.rating = some none → r'.rating = none) ∧
       (u.rating = none → r'.rating = r.rating))) ∧
    (∀ (gid : Nat) (u : BoardGameUpdate) (now : Nat) (s : DB) (r : BoardGameRow),
      u.valid = true →
      s.rows.find? (fun x => x.id == gid) = some r →
      (u.name = some none ∨ u.min_players = some none ∨
        u.max_players = some none) →
      updateGame gid u now s = (.error .persistenceError, s)) := by
  constructor
  · intro gid u now s r r' s' hf hok
    obtain ⟨nm, mn, mx, hv, hn, hmn, hmx, hr', hs'⟩ := updateGame_ok_inv hf hok
    subst hr'
    refine ⟨?_, ?_, ?_, ?_, ?_, ?_, ?_, ?_, ?_, ?_⟩ <;>
      intro hv' <;> simp [updatedRow, optApply, hv']
  · intro gid u now s r hv hf hnull
    cases hn : reqApply u.name r.name with
    | none => simp [updateGame, hv, hf, hn]
    | some nm =>
      cases hmn : reqApply u.min_players r.min_players with
      | none => simp [updateGame, hv, hf, hn, hmn]
      | some mn =>
        cases hmx : reqApply u.max_players r.max_players with
        | none => simp [updateGame, hv, hf, hn, hmn, hmx]
        | some mx =>
          exfalso
          rcases hnull with h | h | h
          · rw [h] at hn
            exact Option.noConfusion hn
          · rw [h] at hmn
            exact Option.noConfusion hmn
          · rw [h] at hmx
            exact Option.noConfusion hmx

/-- Witness for C8 (amended): clearing a non-null description with an
explicit `null` yields a row whose description is `none`. -/
theorem update_absent_vs_null_amended_witness :
    elfRowCleared.description = none :=
  (update_absent_vs_null_amended.1 1 updDescNull 9 elfDB elfRow elfRowCleared
    { rows := [elfRowCleared], nextId := 2 } (by decide) (by decide)).1 rfl

end BoardGames
